import Mathlib

/-!
Verification of the panel-visibility / capture-lifecycle core of the
haruka-webgl repository, shallowly embedded in Lean 4.

JavaScript numbers are modelled as rationals (ℚ); all the arithmetic the
embedded code performs on them is exact on rationals.  JS `Set`s of stream
indices are modelled as `Finset ℕ`, JS `Map`s as functions into `Option`.

Sources embedded:
  - src/lib/layout/visibility.ts        (rect intersection, visibility ratio,
                                         threshold filtering)
  - src/components/PanelCanvas.tsx      (hysteresis visibility step,
                                         start/stop stream diffing,
                                         stop-timer debouncing,
                                         bridge-ready reset,
                                         capture-image listener)
  - src/unnamed/part_011 (unity loader) (wire command payloads)
  - src/lib/capture/capture-manager.ts  (latest-frame cache, emit)
  - src/lib/capture/install-receiver.ts (idempotent bridge install)
-/

namespace Haruka

/-- Axis-aligned rectangle, as the `{x, y, width, height}` object literals of
`visibility.ts`. -/
structure Rect where
  x : ℚ
  y : ℚ
  width : ℚ
  height : ℚ
deriving DecidableEq, Repr

/-- `PanelTransform` of `panel-types.ts` (only the fields the visibility code
reads; `rotation`/`opacity`/`zIndex` never enter the visibility computation). -/
structure PanelTransform where
  x : ℚ
  y : ℚ
  width : ℚ
  height : ℚ
deriving DecidableEq, Repr

/-- `Panel` of `panel-types.ts`, restricted to the fields used by the
visibility engine: the unique `id` and the document-space `transform`. -/
structure Panel where
  id : String
  transform : PanelTransform
deriving DecidableEq, Repr

/-- `VisibleRange` of `panel-types.ts`. -/
structure VisibleRange where
  top : ℚ
  bottom : ℚ
deriving DecidableEq, Repr

/-- `rectIntersectionArea` of `visibility.ts` (lines 21-34):
`xOverlap * yOverlap` with each overlap clamped at 0. -/
def rectIntersectionArea (a b : Rect) : ℚ :=
  let xOverlap := max 0 (min (a.x + a.width) (b.x + b.width) - max a.x b.x)
  let yOverlap := max 0 (min (a.y + a.height) (b.y + b.height) - max a.y b.y)
  xOverlap * yOverlap

/-- `calculateVisibilityRatio` of `visibility.ts` (lines 39-64): intersection
area of the panel rect with the viewport rect
`{x: 0, y: top, width: viewportWidth, height: bottom - top}`, divided by the
panel area, guarded (`if (panelArea === 0) return 0`) and clamped by
`Math.min(1, ...)`. -/
def calculateVisibilityRatio (panel : Panel) (visibleRange : VisibleRange)
    (viewportWidth : ℚ) : ℚ :=
  let panelRect : Rect :=
    ⟨panel.transform.x, panel.transform.y,
     panel.transform.width, panel.transform.height⟩
  let viewportRect : Rect :=
    ⟨0, visibleRange.top, viewportWidth,
     visibleRange.bottom - visibleRange.top⟩
  let intersectionArea := rectIntersectionArea panelRect viewportRect
  let panelArea := panelRect.width * panelRect.height
  if panelArea = 0 then 0 else min 1 (intersectionArea / panelArea)

/-- `getVisiblePanels` of `visibility.ts` (lines 69-79): keep the panels whose
visibility ratio is `>= threshold`. -/
def getVisiblePanels (panels : List Panel) (visibleRange : VisibleRange)
    (viewportWidth : ℚ) (threshold : ℚ) : List Panel :=
  panels.filter fun panel =>
    calculateVisibilityRatio panel visibleRange viewportWidth ≥ threshold

/-- One panel's visibility decision inside `updateVisibleRange` of
`PanelCanvas.tsx` (lines 680-694): the threshold is `0.1` if the panel was in
`previousVisiblePanelIds` and `0.5` otherwise, and the panel is declared
visible when `getVisiblePanels([panel], ...)` is non-empty. -/
def panelVisibleStep (panel : Panel) (wasVisible : Bool)
    (range : VisibleRange) (viewportWidth : ℚ) : Bool :=
  let threshold : ℚ := if wasVisible then 1/10 else 1/2
  (getVisiblePanels [panel] range viewportWidth threshold).length > 0

/-- The whole-scene hysteresis recomputation of `updateVisibleRange`
(`PanelCanvas.tsx` lines 678-697): build `newVisibleIds` from scratch,
consulting the prior visible-id set per panel. -/
def updateVisibleIds (panels : List Panel) (prior : Finset String)
    (range : VisibleRange) (viewportWidth : ℚ) : Finset String :=
  panels.foldl
    (fun acc panel =>
      if panelVisibleStep panel (panel.id ∈ prior) range viewportWidth then
        insert panel.id acc
      else acc)
    ∅

/-- Iterate `updateVisibleIds` over a sequence of visible ranges (one
recomputation per scroll tick), threading the prior visible-id set, and record
the visible-id set after each step. -/
def runVisibility (panels : List Panel) (viewportWidth : ℚ) :
    Finset String → List VisibleRange → List (Finset String)
  | _, [] => []
  | prior, range :: rest =>
    let next := updateVisibleIds panels prior range viewportWidth
    next :: runVisibility panels viewportWidth next rest

/-- The single test panel of the hysteresis scenario: a 100×100 panel at the
document origin. -/
def panelA : Panel := ⟨"a", ⟨0, 0, 100, 100⟩⟩

/-- Visible ranges realising the visibility-ratio sequence
`0.6, 0.3, 0.05, 0.3, 0.6` for `panelA` at viewport width 100. -/
def hysteresisRanges : List VisibleRange :=
  [⟨40, 140⟩, ⟨70, 170⟩, ⟨95, 195⟩, ⟨70, 170⟩, ⟨40, 140⟩]

/-!
## Capture lifecycle coordinator

`updateVisibleRange` in `PanelCanvas.tsx` (lines 747-821) diffs the newly
visible Unity stream indices against `activeUnityIndexes` and the pending
stop timers in `unityStopTimers`.  The mutable refs become an explicit state
record; the outbound `startUnityCapture`/`stopUnityCapture` calls become an
emitted command list.
-/

/-- An outbound capture command handed to the bridge. -/
inductive CaptureCmd where
  | start (index : ℕ) (intervalMs : ℕ)
  | stop (index : ℕ)
deriving DecidableEq, Repr

/-- The coordinator's mutable refs: `activeUnityIndexes.current` and the key
set of `unityStopTimers.current` (a pending stop timer per index). -/
structure CoordState where
  active : Finset ℕ
  pendingStop : Finset ℕ
deriving DecidableEq

/-- Initial coordinator state: both refs start empty. -/
def coordInit : CoordState := ⟨∅, ∅⟩

/-- The stream diff of `updateVisibleRange` (`PanelCanvas.tsx` lines 753-821):
for each newly visible index, cancel a pending stop timer if one exists
(no command), otherwise issue `startUnityCapture(index, 500)`; for each index
no longer visible, (re)arm a stop timer; finally store the new visible index
set as `activeUnityIndexes`.  Commands are collected as a multiset, matching
the unordered iteration over a JS `Set`. -/
def recomputeStep (s : CoordState) (newVisible : Finset ℕ) :
    CoordState × Multiset CaptureCmd :=
  let entering := newVisible \ s.active
  let cancelled := entering.filter (fun i => i ∈ s.pendingStop)
  let started := entering.filter (fun i => i ∉ s.pendingStop)
  let leaving := s.active \ newVisible
  let cmds := started.val.map (fun i => CaptureCmd.start i 500)
  (⟨newVisible, (s.pendingStop \ cancelled) ∪ leaving⟩, cmds)

/-- The stop-timer callback (`PanelCanvas.tsx` lines 787-814): only a timer
that is still armed can fire (a `clearTimeout`-ed timer never runs, hence the
`i ∈ s.pendingStop` guard); at fire time the callback re-checks
`activeUnityIndexes` and sends `stopUnityCapture(index)` only if the index is
still not visible, then removes itself from `unityStopTimers`. -/
def timerFireStep (s : CoordState) (i : ℕ) :
    CoordState × Multiset CaptureCmd :=
  if i ∈ s.pendingStop then
    let s1 : CoordState := ⟨s.active, s.pendingStop.erase i⟩
    if i ∈ s.active then (s1, 0) else (s1, {CaptureCmd.stop i})
  else (s, 0)

/-- `handleBridgeReady` (`PanelCanvas.tsx` lines 929-945): clear
`activeUnityIndexes` and run one full `updateVisibleRange` against the
streams visible at that moment.  Pending stop timers are not touched. -/
def bridgeReadyStep (s : CoordState) (visibleNow : Finset ℕ) :
    CoordState × Multiset CaptureCmd :=
  recomputeStep ⟨∅, s.pendingStop⟩ visibleNow

/-- The discrete events the coordinator reacts to. -/
inductive CoordEvent where
  | recompute (newVisible : Finset ℕ)
  | timerFire (i : ℕ)
  | bridgeReady (visibleNow : Finset ℕ)
deriving DecidableEq

/-- Dispatch one event. -/
def step (s : CoordState) : CoordEvent → CoordState × Multiset CaptureCmd
  | .recompute nv => recomputeStep s nv
  | .timerFire i => timerFireStep s i
  | .bridgeReady nv => bridgeReadyStep s nv

/-- Run a sequence of events, accumulating all emitted commands. -/
def runEvents (s : CoordState) :
    List CoordEvent → CoordState × Multiset CaptureCmd
  | [] => (s, 0)
  | e :: rest =>
    let out := step s e
    let tail := runEvents out.1 rest
    (tail.1, out.2 + tail.2)

/-- `firesWhileActive i s events = true` says that every `timerFire i` event
in the sequence happens at a moment when index `i` is (again) in the active
visible stream set — i.e. every stream-`i` deactivation deadline is preceded
by the stream re-entering visibility. -/
def firesWhileActive (i : ℕ) : CoordState → List CoordEvent → Bool
  | _, [] => true
  | s, e :: rest =>
    (if e = CoordEvent.timerFire i then decide (i ∈ s.active) else true) &&
      firesWhileActive i (step s e).1 rest

/-!
## Outbound wire commands

`startUnityCapture` / `stopUnityCapture` / `setUnityCaptureInterval` in the
Unity loader module (`src/unnamed/part_011`, lines 181-213) build string
payloads and pass them to `sendMessageToUnity("Bridge", ..., payload)`;
`sendMessageToUnity` drops the message when `window.unityInstance` is absent.
-/

/-- One `SendMessage` call delivered to the Unity renderer. -/
structure UnityMessage where
  gameObject : String
  methodName : String
  param : Option String
deriving DecidableEq, Repr

/-- `sendMessageToUnity` (`src/unnamed/part_011` lines 123-165): delivered
when the Unity instance exists, silently dropped (warning logged) otherwise. -/
def sendMessageToUnity (unityReady : Bool) (gameObjectName methodName : String)
    (param : Option String) : Option UnityMessage :=
  if unityReady then some ⟨gameObjectName, methodName, param⟩ else none

/-- `startUnityCapture` (`src/unnamed/part_011` lines 181-192): payload
`index=<N>;intervalMs=<M>` sent to `Bridge.StartCapture`. -/
def startUnityCapture (unityReady : Bool) (index intervalMs : ℕ) :
    Option UnityMessage :=
  let payload := "index=" ++ toString index ++ ";intervalMs=" ++ toString intervalMs
  sendMessageToUnity unityReady "Bridge" "StartCapture" (some payload)

/-- `startUnityCapture` with the declared default `intervalMs = 500`. -/
def startUnityCaptureDefault (unityReady : Bool) (index : ℕ) :
    Option UnityMessage :=
  startUnityCapture unityReady index 500

/-- `stopUnityCapture` (`src/unnamed/part_011` lines 198-202): payload
`index=<N>` sent to `Bridge.StopCapture`. -/
def stopUnityCapture (unityReady : Bool) (index : ℕ) : Option UnityMessage :=
  let payload := "index=" ++ toString index
  sendMessageToUnity unityReady "Bridge" "StopCapture" (some payload)

/-- `setUnityCaptureInterval` (`src/unnamed/part_011` lines 209-213): payload
`index=<N>;intervalMs=<M>` sent to `Bridge.SetInterval`. -/
def setUnityCaptureInterval (unityReady : Bool) (index intervalMs : ℕ) :
    Option UnityMessage :=
  let payload := "index=" ++ toString index ++ ";intervalMs=" ++ toString intervalMs
  sendMessageToUnity unityReady "Bridge" "SetInterval" (some payload)

/-!
## Frame cache (`CaptureManager`, src/lib/capture/capture-manager.ts)
-/

/-- The `Frame` record of `capture-manager.ts` (line 10). -/
structure Frame where
  b64 : String
  w : ℚ
  h : ℚ
deriving DecidableEq, Repr

/-- The private fields of `CaptureManager`; the JS `Map` `latestByIndex`
becomes a function into `Option Frame`, `timer !== null` becomes `running`,
and the ambient `window.unityInstance` check becomes `unityReady`. -/
structure CMState where
  intervalMs : ℚ
  running : Bool
  hasVisible : Bool
  isTabVisible : Bool
  unityReady : Bool
  latestByIndex : ℕ → Option Frame

/-- `CaptureManager.start` (lines 71-98): no-op when already running or when
the Unity instance is not ready, otherwise arms the interval timer. -/
def cmStart (s : CMState) : CMState :=
  if s.running then s
  else if !s.unityReady then s
  else { s with running := true }

/-- `CaptureManager.stop` (lines 103-111). -/
def cmStop (s : CMState) : CMState :=
  { s with running := false }

/-- `CaptureManager.setVisibleState` (lines 51-66). -/
def cmSetVisibleState (s : CMState) (hasVisible : Bool) : CMState :=
  let s1 := { s with hasVisible := hasVisible }
  if hasVisible && s1.isTabVisible then cmStart s1 else cmStop s1

/-- The cache write of `CaptureManager.emit` (line 129):
`this.latestByIndex.set(index, { b64, w, h })`, unconditional. -/
def cmEmit (s : CMState) (b64 : String) (w h : ℚ) (index : ℕ) : CMState :=
  { s with latestByIndex :=
      fun j => if j = index then some ⟨b64, w, h⟩ else s.latestByIndex j }

/-- `CaptureManager.getLatest` (lines 146-148). -/
def getLatest (s : CMState) (index : ℕ) : Option Frame :=
  s.latestByIndex index

/-- `CaptureManager.setInterval` (lines 153-160). -/
def cmSetInterval (s : CMState) (ms : ℚ) : CMState :=
  let wasRunning := s.running
  let s1 := cmStop s
  let s2 := { s1 with intervalMs := ms }
  if wasRunning && s2.hasVisible && s2.isTabVisible then cmStart s2 else s2

/-- A registered capture listener, as its observable outcome: `ok` when the
callback returns, `error` when it throws. -/
def CMListener := String → ℚ → ℚ → ℕ → Except String Unit

/-- The whole of `CaptureManager.emit` (lines 127-141): store the frame, then
invoke every listener inside `try { ... } catch { log }`, so a throwing
listener is counted (logged) but never aborts the delivery; the call always
completes with the cache updated. -/
def cmEmitNotify (s : CMState) (listeners : List CMListener) (b64 : String)
    (w h : ℚ) (index : ℕ) : CMState × ℕ :=
  let s1 := cmEmit s b64 w h index
  let loggedErrors := listeners.countP fun fn =>
    match fn b64 w h index with
    | .error _ => true
    | .ok _ => false
  (s1, loggedErrors)

/-!
## Capture-image listener of PanelCanvas

`captureManager.onImage((b64, w, h, index) => ...)` in `PanelCanvas.tsx`
(lines 478-532): store the data-URL into `unityImagesRef` keyed by index,
then set the redraw flag only when the index is in `activeUnityIndexes`.
-/

/-- The slice of `PanelCanvas` state the image listener touches. -/
structure PanelCaptureState where
  unityImages : ℕ → Option String
  needsRedraw : Bool
  activeUnityIndexes : Finset ℕ

/-- The `onImage` listener body (`PanelCanvas.tsx` lines 478-532): the image
source is overwritten with the incoming data URL unconditionally;
`setNeedsRedraw(true)` runs only when `activeUnityIndexes` contains the
index (otherwise the update is skipped and no repaint is triggered). -/
def onImageListener (s : PanelCaptureState) (b64 : String) (index : ℕ) :
    PanelCaptureState :=
  let images := fun j =>
    if j = index then some ("data:image/png;base64," ++ b64)
    else s.unityImages j
  let isIndexVisible := index ∈ s.activeUnityIndexes
  if isIndexVisible then
    { unityImages := images, needsRedraw := true,
      activeUnityIndexes := s.activeUnityIndexes }
  else
    { unityImages := images, needsRedraw := s.needsRedraw,
      activeUnityIndexes := s.activeUnityIndexes }

/-!
## Receiver bridge installation (src/lib/capture/install-receiver.ts)
-/

/-- What `window.onUnityImageReceived` currently is: unset, the legacy
canvas-drawing handler installed by the Unity loader module, or the bridge
handler installed by `installUnityReceiverBridge` that forwards to
`captureManager.emit`. -/
inductive WindowReceiver where
  | unset
  | drawCanvasReceiver
  | bridgeReceiver
deriving DecidableEq, Repr

/-- The module-level state of `install-receiver.ts`: the `installed` flag
(line 3) plus the window-level callback slot it writes. -/
structure ReceiverState where
  installed : Bool
  onUnityImageReceived : WindowReceiver
deriving DecidableEq, Repr

/-- `installUnityReceiverBridge` (lines 9-38): a no-op when `installed` is
already set; otherwise overwrite `window.onUnityImageReceived` with the
forwarding callback and set the flag. -/
def installUnityReceiverBridge (s : ReceiverState) : ReceiverState :=
  if s.installed then s
  else { installed := true,
         onUnityImageReceived := WindowReceiver.bridgeReceiver }

/-- `isReceiverBridgeInstalled` (lines 43-45). -/
def isReceiverBridgeInstalled (s : ReceiverState) : Bool :=
  s.installed

/-- Delivering an inbound frame through the currently installed window
callback: the bridge receiver forwards to `captureManager.emit`
(install-receiver.ts line 34); any other receiver leaves the capture manager
untouched. -/
def deliverFrame (r : ReceiverState) (cm : CMState) (b64 : String) (w h : ℚ)
    (index : ℕ) : CMState :=
  match r.onUnityImageReceived with
  | WindowReceiver.bridgeReceiver => cmEmit cm b64 w h index
  | _ => cm

/-- C1: the visible flag follows the asymmetric hysteresis rule: a panel in
the prior visible set stays visible exactly while its visibility ratio is at
least the low threshold 0.1, and a panel not previously visible becomes
visible exactly when its ratio reaches the high threshold 0.5; in particular,
for a panel starting not-visible whose ratio sequence is
0.6, 0.3, 0.05, 0.3, 0.6 (realised by `hysteresisRanges` for `panelA` at
viewport width 100), the computed visible-flag sequence is
visible, visible, not-visible, not-visible, visible. -/
theorem hysteresis_visibility :
    (∀ (p : Panel) (prior : Finset String) (range : VisibleRange) (vw : ℚ),
      p.id ∈ updateVisibleIds [p] prior range vw ↔
        calculateVisibilityRatio p range vw ≥
          (if p.id ∈ prior then (1 : ℚ)/10 else 1/2))
    ∧ (hysteresisRanges.map fun r => calculateVisibilityRatio panelA r 100)
        = [3/5, 3/10, 1/20, 3/10, 3/5]
    ∧ (runVisibility [panelA] 100 ∅ hysteresisRanges).map
        (fun s => decide ("a" ∈ s)) = [true, true, false, false, true] := by
  refine ⟨?_, ?_, ?_⟩
  · intro p prior range vw
    by_cases hmem : p.id ∈ prior <;>
      [by_cases hr : ((1 : ℚ)/10 ≤ calculateVisibilityRatio p range vw);
       by_cases hr : ((1 : ℚ)/2 ≤ calculateVisibilityRatio p range vw)] <;>
      simp only [one_div] at hr ⊢ <;>
      simp [updateVisibleIds, panelVisibleStep, getVisiblePanels,
        List.filter_cons, hmem, hr, ge_iff_le]
  · simp only [hysteresisRanges, panelA, calculateVisibilityRatio,
      rectIntersectionArea, List.map]
    norm_num
  · simp only [runVisibility, updateVisibleIds, panelVisibleStep,
      getVisiblePanels, calculateVisibilityRatio, rectIntersectionArea,
      panelA, hysteresisRanges, List.foldl, List.filter]
    norm_num

/-- Helper: a zero-height visible range gives visibility ratio 0. -/
theorem ratio_zero_of_zero_height (p : Panel) (range : VisibleRange) (vw : ℚ)
    (h : range.bottom = range.top) :
    calculateVisibilityRatio p range vw = 0 := by
  unfold calculateVisibilityRatio rectIntersectionArea
  simp only [h, sub_self, add_zero]
  have hy : min (p.transform.y + p.transform.height) range.top -
      max p.transform.y range.top ≤ 0 :=
    sub_nonpos.mpr (le_trans (min_le_right _ _) (le_max_right _ _))
  rw [max_eq_left hy]
  simp

/-- Helper: a zero-width viewport gives visibility ratio 0. -/
theorem ratio_zero_of_zero_width (p : Panel) (range : VisibleRange) :
    calculateVisibilityRatio p range 0 = 0 := by
  unfold calculateVisibilityRatio rectIntersectionArea
  simp only [add_zero]
  have hx : min (p.transform.x + p.transform.width) (0 : ℚ) -
      max p.transform.x 0 ≤ 0 :=
    sub_nonpos.mpr (le_trans (min_le_right _ _) (le_max_right _ _))
  rw [max_eq_left hx]
  simp

/-- C8: computing the visible panel set never performs a division by zero:
a panel of zero area gets visibility ratio 0 (the guard in
`calculateVisibilityRatio`), and a zero-height or zero-width visible range
yields an empty visible set under any positive threshold. -/
theorem visibility_no_division_error :
    (∀ (p : Panel) (range : VisibleRange) (vw : ℚ),
        p.transform.width * p.transform.height = 0 →
        calculateVisibilityRatio p range vw = 0)
    ∧ (∀ (panels : List Panel) (range : VisibleRange) (vw t : ℚ),
        0 < t → range.bottom = range.top →
        getVisiblePanels panels range vw t = [])
    ∧ (∀ (panels : List Panel) (range : VisibleRange) (t : ℚ),
        0 < t → getVisiblePanels panels range 0 t = []) := by
  refine ⟨?_, ?_, ?_⟩
  · intro p range vw h
    unfold calculateVisibilityRatio
    simp [h]
  · intro panels range vw t ht hrange
    unfold getVisiblePanels
    rw [List.filter_eq_nil_iff]
    intro p _
    simp [ratio_zero_of_zero_height p range vw hrange, not_le, ht]
  · intro panels range t ht
    unfold getVisiblePanels
    rw [List.filter_eq_nil_iff]
    intro p _
    simp [ratio_zero_of_zero_width p range, not_le, ht]

/-- Witness for C8 at concrete inputs: a zero-width panel, a zero-height
range, and a zero-width viewport. -/
theorem visibility_no_division_error_witness :
    calculateVisibilityRatio ⟨"z", ⟨0, 0, 0, 5⟩⟩ ⟨0, 100⟩ 100 = 0
    ∧ getVisiblePanels [panelA] ⟨3, 3⟩ 100 (1/10) = []
    ∧ getVisiblePanels [panelA] ⟨0, 100⟩ 0 (1/10) = [] :=
  ⟨visibility_no_division_error.1 ⟨"z", ⟨0, 0, 0, 5⟩⟩ ⟨0, 100⟩ 100 (by norm_num),
   visibility_no_division_error.2.1 [panelA] ⟨3, 3⟩ 100 (1/10) (by norm_num) rfl,
   visibility_no_division_error.2.2 [panelA] ⟨0, 100⟩ (1/10) (by norm_num)⟩

/-- C2: on a visibility recomputation, start commands are issued exactly for
streams entering the visible stream set that have no pending deactivation
(a pending deactivation is cancelled instead, with no command sent), no stop
command is ever issued synchronously, and stops are scheduled exactly for
streams leaving the set; concretely, from active set {0,1} with no pending
timers and new visible set {1,2}, exactly one start command (index 2) is
issued and exactly one stop (index 0) is scheduled, with no command for
index 1. -/
theorem stream_diff_correct :
    (∀ (s : CoordState) (nv : Finset ℕ) (i m : ℕ),
        (CaptureCmd.start i m ∈ (recomputeStep s nv).2 ↔
          i ∈ nv ∧ i ∉ s.active ∧ i ∉ s.pendingStop ∧ m = 500)
      ∧ CaptureCmd.stop i ∉ (recomputeStep s nv).2
      ∧ (i ∈ (recomputeStep s nv).1.pendingStop ↔
          (i ∈ s.active ∧ i ∉ nv) ∨
            (i ∈ s.pendingStop ∧ ¬(i ∈ nv ∧ i ∉ s.active))))
    ∧ recomputeStep ⟨{0, 1}, ∅⟩ {1, 2} =
        (⟨{1, 2}, {0}⟩, {CaptureCmd.start 2 500}) := by
  constructor
  · intro s nv i m
    refine ⟨?_, ?_, ?_⟩
    · simp only [recomputeStep, Multiset.mem_map, Finset.mem_val,
        Finset.mem_filter, Finset.mem_sdiff, CaptureCmd.start.injEq]
      constructor
      · rintro ⟨j, ⟨⟨hjnv, hjact⟩, hjp⟩, hji, hm⟩
        subst hji
        exact ⟨hjnv, hjact, hjp, hm.symm⟩
      · rintro ⟨hnv, hact, hp, hm⟩
        exact ⟨i, ⟨⟨hnv, hact⟩, hp⟩, rfl, hm.symm⟩
    · simp only [recomputeStep, Multiset.mem_map, Finset.mem_val,
        Finset.mem_filter, Finset.mem_sdiff]
      rintro ⟨j, hj, heq⟩
      exact absurd heq (by simp)
    · simp only [recomputeStep, Finset.mem_union, Finset.mem_sdiff,
        Finset.mem_filter]
      tauto
  · decide

/-- Witness for C2: the start-command characterisation instantiated at the
concrete diff, showing the index-2 start command is emitted. -/
theorem stream_diff_correct_witness :
    CaptureCmd.start 2 500 ∈ (recomputeStep ⟨{0, 1}, ∅⟩ {1, 2}).2 :=
  (stream_diff_correct.1 ⟨{0, 1}, ∅⟩ {1, 2} 2 500).1.mpr (by decide)

/-- Helper: a single coordinator step emits no stop command for index `i`
unless it is the firing of index `i`'s own stop timer while `i` is not in the
active set. -/
theorem step_no_stop (s : CoordState) (e : CoordEvent) (i : ℕ)
    (h : e = CoordEvent.timerFire i → i ∈ s.active) :
    CaptureCmd.stop i ∉ (step s e).2 := by
  cases e with
  | recompute nv =>
    simp only [step, recomputeStep, Multiset.mem_map]
    rintro ⟨j, hj, heq⟩
    exact absurd heq (by simp)
  | bridgeReady nv =>
    simp only [step, bridgeReadyStep, recomputeStep, Multiset.mem_map]
    rintro ⟨j, hj, heq⟩
    exact absurd heq (by simp)
  | timerFire j =>
    by_cases hji : j = i
    · subst hji
      have hj := h rfl
      by_cases hp : j ∈ s.pendingStop <;> simp [step, timerFireStep, hp, hj]
    · by_cases hp : j ∈ s.pendingStop <;>
        by_cases ha : j ∈ s.active <;>
        simp [step, timerFireStep, hp, ha, CaptureCmd.stop.injEq,
          Ne.symm hji]

/-- C3: no stop command is ever sent for a stream that becomes visible again
before its pending-deactivation deadline fires: in any event sequence in
which every `timerFire i` happens while `i` is in the active visible set
(i.e. the stream re-entered before the deadline), zero stop commands for `i`
are emitted across the whole run; concretely, when stream 0 leaves and
re-enters before the timer fires, the timer is cancelled (final pending set
is empty) and the run emits no stop command at all. -/
theorem debounced_stop_cancellation :
    (∀ (s : CoordState) (events : List CoordEvent) (i : ℕ),
        firesWhileActive i s events = true →
        CaptureCmd.stop i ∉ (runEvents s events).2)
    ∧ runEvents coordInit
        [CoordEvent.recompute {0}, CoordEvent.recompute ∅,
         CoordEvent.recompute {0}, CoordEvent.timerFire 0] =
        (⟨{0}, ∅⟩, {CaptureCmd.start 0 500}) := by
  constructor
  · intro s events i
    induction events generalizing s with
    | nil => simp [runEvents]
    | cons e rest ih =>
      intro h
      rw [firesWhileActive, Bool.and_eq_true] at h
      obtain ⟨h1, h2⟩ := h
      have hguard : e = CoordEvent.timerFire i → i ∈ s.active := by
        intro he
        rw [if_pos he] at h1
        exact of_decide_eq_true h1
      simp only [runEvents, Multiset.mem_add]
      push_neg
      exact ⟨step_no_stop s e i hguard, ih (step s e).1 h2⟩
  · decide

/-- Witness for C3: the general no-stop theorem applied to the concrete
leave/re-enter/fire trace for stream 0. -/
theorem debounced_stop_cancellation_witness :
    CaptureCmd.stop 0 ∉
      (runEvents coordInit
        [CoordEvent.recompute {0}, CoordEvent.recompute ∅,
         CoordEvent.recompute {0}, CoordEvent.timerFire 0]).2 :=
  debounced_stop_cancellation.1 coordInit
    [CoordEvent.recompute {0}, CoordEvent.recompute ∅,
     CoordEvent.recompute {0}, CoordEvent.timerFire 0] 0 (by decide)

/-- Counterexample to C4 as stated: after the reachable trace in which
stream 0 becomes visible and then leaves (arming its stop timer), a
bridge-ready event with stream 0 visible again issues no command at all —
the pending deactivation is cancelled instead of a StartCapture being
re-issued, so not every stream visible at readiness gets a start command. -/
theorem bridge_ready_replay_counterexample :
    (runEvents coordInit [CoordEvent.recompute {0}, CoordEvent.recompute ∅]).1
      = (⟨∅, {0}⟩ : CoordState)
    ∧ (bridgeReadyStep ⟨∅, {0}⟩ {0}).2 = 0
    ∧ 0 ∈ ({0} : Finset ℕ) := by decide

/-- C4 (amended): the bridge-ready handler clears the active-stream
bookkeeping and forces a full recomputation, so a StartCapture is re-issued
for every stream visible at that moment that has no pending deactivation
timer — in particular even for a stream already recorded as active before
readiness. -/
theorem bridge_ready_replay :
    (∀ (s : CoordState) (nv : Finset ℕ), (bridgeReadyStep s nv).1.active = nv)
    ∧ (∀ (s : CoordState) (nv : Finset ℕ) (i : ℕ),
        i ∈ nv → i ∉ s.pendingStop →
        CaptureCmd.start i 500 ∈ (bridgeReadyStep s nv).2) := by
  constructor
  · intro s nv
    rfl
  · intro s nv i hi hp
    unfold bridgeReadyStep recomputeStep
    refine Multiset.mem_map.mpr ⟨i, ?_, rfl⟩
    simp [Finset.mem_filter, Finset.mem_sdiff, hi, hp]

/-- Witness for C4: stream 0 was already recorded active (and has no pending
timer); the bridge-ready recomputation re-issues its StartCapture. -/
theorem bridge_ready_replay_witness :
    CaptureCmd.start 0 500 ∈ (bridgeReadyStep ⟨{0}, ∅⟩ {0}).2 :=
  bridge_ready_replay.2 ⟨{0}, ∅⟩ {0} 0 (by decide) (by decide)
/-- C5: the outbound commands are addressed to the fixed renderer name
`Bridge` and carry exactly the wire payloads `index=<N>;intervalMs=<M>` for
StartCapture (with M defaulting to 500), `index=<N>` for StopCapture, and
`index=<N>;intervalMs=<M>` for SetInterval. -/
theorem wire_payload_formats :
    (∀ (n m : ℕ),
        startUnityCapture true n m =
          some ⟨"Bridge", "StartCapture",
            some ("index=" ++ toString n ++ ";intervalMs=" ++ toString m)⟩
      ∧ stopUnityCapture true n =
          some ⟨"Bridge", "StopCapture", some ("index=" ++ toString n)⟩
      ∧ setUnityCaptureInterval true n m =
          some ⟨"Bridge", "SetInterval",
            some ("index=" ++ toString n ++ ";intervalMs=" ++ toString m)⟩
      ∧ startUnityCaptureDefault true n = startUnityCapture true n 500)
    ∧ startUnityCapture true 3 500 =
        some ⟨"Bridge", "StartCapture", some "index=3;intervalMs=500"⟩
    ∧ stopUnityCapture true 3 =
        some ⟨"Bridge", "StopCapture", some "index=3"⟩
    ∧ setUnityCaptureInterval true 3 250 =
        some ⟨"Bridge", "SetInterval", some "index=3;intervalMs=250"⟩ := by
  refine ⟨fun n m => ⟨rfl, rfl, rfl, rfl⟩, ?_, ?_, ?_⟩ <;> rfl

/-- C6: the frame cache is last-write-wins: putting frame `a` then frame `b`
for the same index leaves exactly `b` retrievable, a put overwrites only its
own index, and the start/stop/visibility/interval operations never change
the cached frames. -/
theorem frame_cache_last_write_wins :
    ∀ (s : CMState) (a b : Frame) (i j : ℕ),
      getLatest (cmEmit (cmEmit s a.b64 a.w a.h i) b.b64 b.w b.h i) i = some b
      ∧ getLatest (cmEmit s b.b64 b.w b.h i) j =
          (if j = i then some b else getLatest s j)
      ∧ getLatest (cmStop s) j = getLatest s j
      ∧ getLatest (cmStart s) j = getLatest s j
      ∧ getLatest (cmSetVisibleState s true) j = getLatest s j
      ∧ getLatest (cmSetVisibleState s false) j = getLatest s j
      ∧ getLatest (cmSetInterval s 250) j = getLatest s j := by
  intro s a b i j
  refine ⟨?_, ?_, ?_, ?_, ?_, ?_, ?_⟩
  · simp [getLatest, cmEmit]
  · by_cases h : j = i <;> simp [getLatest, cmEmit, h]
  · simp [getLatest, cmStop]
  · unfold cmStart
    by_cases h1 : s.running <;> by_cases h2 : s.unityReady <;>
      simp [getLatest, h1, h2]
  · unfold cmSetVisibleState cmStart cmStop
    by_cases h1 : s.isTabVisible <;> by_cases h2 : s.running <;>
      by_cases h3 : s.unityReady <;> simp [getLatest, h1, h2, h3]
  · unfold cmSetVisibleState cmStart cmStop
    by_cases h1 : s.isTabVisible <;> by_cases h2 : s.running <;>
      by_cases h3 : s.unityReady <;> simp [getLatest, h1, h2, h3]
  · unfold cmSetInterval cmStart cmStop
    by_cases h1 : s.running <;> by_cases h2 : s.hasVisible <;>
      by_cases h3 : s.isTabVisible <;> by_cases h4 : s.unityReady <;>
      simp [getLatest, h1, h2, h3, h4]
/-- C7: when a frame arrives for stream index `i`, the data URL is stored in
the per-index image cache unconditionally, but the redraw flag is set only
when `i` is in the active visible stream set; for an inactive stream the
redraw flag and the active set are unchanged, and no cache entry other than
index `i` changes. -/
theorem frame_redraw_only_when_active :
    ∀ (s : PanelCaptureState) (b64 : String) (i : ℕ),
      (onImageListener s b64 i).unityImages i =
          some ("data:image/png;base64," ++ b64)
      ∧ (onImageListener s b64 i).activeUnityIndexes = s.activeUnityIndexes
      ∧ (i ∈ s.activeUnityIndexes →
          (onImageListener s b64 i).needsRedraw = true)
      ∧ (i ∉ s.activeUnityIndexes →
          (onImageListener s b64 i).needsRedraw = s.needsRedraw)
      ∧ (∀ j, j ≠ i →
          (onImageListener s b64 i).unityImages j = s.unityImages j) := by
  intro s b64 i
  by_cases h : i ∈ s.activeUnityIndexes <;>
    refine ⟨?_, ?_, ?_, ?_, ?_⟩ <;>
    simp [onImageListener, h] <;>
    intro j hj <;>
    simp [hj]

/-- Witness for C7: with only stream 0 active, a frame for index 0 sets the
redraw flag and a frame for index 1 leaves it unchanged. -/
theorem frame_redraw_only_when_active_witness :
    (onImageListener ⟨fun _ => none, false, {0}⟩ "AA" 0).needsRedraw = true
    ∧ (onImageListener ⟨fun _ => none, false, {0}⟩ "AA" 1).needsRedraw =
        (⟨fun _ => none, false, {0}⟩ : PanelCaptureState).needsRedraw :=
  ⟨(frame_redraw_only_when_active ⟨fun _ => none, false, {0}⟩ "AA" 0).2.2.1
      (by decide),
   (frame_redraw_only_when_active ⟨fun _ => none, false, {0}⟩ "AA" 1).2.2.2.1
      (by decide)⟩

/-- Whether a string is plausibly decodable base64 image data.  This follows
the specification's notion of parsable image data (the `MalformedFrame`
taxonomy entry); the receiving code never consults any such predicate, which
is exactly what the counterexample below exhibits. -/
def wellFormedBase64 (s : String) : Bool :=
  s.toList.all (fun c => c.isAlphanum || c = '+' || c = '/' || c = '=') &&
    s.length % 4 = 0

/-- A capture-manager state already holding a good frame for stream 0. -/
def cmWithFrame : CMState :=
  ⟨500, false, false, true, true,
   fun j => if j = 0 then some ⟨"AAAA", 10, 10⟩ else none⟩

/-- Counterexample to C9 as stated: the frame path performs no validation,
so an unparsable payload (`%%%` is not well-formed base64) overwrites the
previously cached frame for its index — the previous frame does not remain
stored. -/
theorem malformed_frame_overwrites :
    wellFormedBase64 "%%%" = false
    ∧ getLatest cmWithFrame 0 = some ⟨"AAAA", 10, 10⟩
    ∧ getLatest (cmEmit cmWithFrame "%%%" 10 10 0) 0 = some ⟨"%%%", 10, 10⟩
    ∧ getLatest (cmEmit cmWithFrame "%%%" 10 10 0) 0 ≠ getLatest cmWithFrame 0 := by
  refine ⟨by decide, rfl, rfl, by decide⟩

/-- C9 (amended): an inbound frame — parsable or not — is stored
unconditionally, overwriting the cached frame for its index; delivery always
completes with the cache updated (listener exceptions are caught at the emit
boundary), and the installed bridge receiver forwards every frame to the
capture manager unchanged. -/
theorem frame_delivery_total :
    ∀ (s : CMState) (listeners : List CMListener) (b64 : String) (w h : ℚ)
      (i : ℕ),
      getLatest (cmEmit s b64 w h i) i = some ⟨b64, w, h⟩
      ∧ (cmEmitNotify s listeners b64 w h i).1 = cmEmit s b64 w h i
      ∧ deliverFrame ⟨true, WindowReceiver.bridgeReceiver⟩ s b64 w h i =
          cmEmit s b64 w h i := by
  intro s listeners b64 w h i
  exact ⟨by simp [getLatest, cmEmit], rfl, rfl⟩

/-- C10: `installUnityReceiverBridge` is idempotent: the first call installs
the forwarding window callback and sets the flag, every later call is a
no-op leaving all state unchanged, `isReceiverBridgeInstalled` reports true
after any install, and frames delivered through the installed callback go to
the capture manager's emit. -/
theorem receiver_bridge_idempotent :
    (∀ s : ReceiverState,
        installUnityReceiverBridge (installUnityReceiverBridge s) =
          installUnityReceiverBridge s)
    ∧ (∀ r, installUnityReceiverBridge ⟨false, r⟩ =
        ⟨true, WindowReceiver.bridgeReceiver⟩)
    ∧ (∀ r, installUnityReceiverBridge ⟨true, r⟩ = ⟨true, r⟩)
    ∧ (∀ s, isReceiverBridgeInstalled (installUnityReceiverBridge s) = true)
    ∧ (∀ (r : WindowReceiver) (cm : CMState) (b64 : String) (w h : ℚ)
        (i : ℕ),
        deliverFrame (installUnityReceiverBridge ⟨false, r⟩) cm b64 w h i =
          cmEmit cm b64 w h i) := by
  refine ⟨?_, fun r => rfl, fun r => rfl, ?_, fun r cm b64 w h i => rfl⟩
  · intro s
    unfold installUnityReceiverBridge
    by_cases h : s.installed <;> simp [h]
  · intro s
    unfold installUnityReceiverBridge isReceiverBridgeInstalled
    by_cases h : s.installed <;> simp [h]
end Haruka
